import Mathlib

/-!
# Verification of the skycam camera-control core

Shallow embedding of the skycam repository's settings-reconciliation,
settings-layering, template-store and capture logic
(`skycam_common/camera.py`, `skycam_common/template.py`,
`skycam_cli/cli.py`), together with proofs of the spec's testable
properties about them.

Python floats are modelled as rationals (every value the program
handles is a short decimal literal), Python `Optional` as `Option`,
a raised exception as `Option.none` / `Except.error`, and the
template directory as a finite association list keyed by name.
Rational constants are written with `mkRat` (e.g. `mkRat 14 10` for
the literal `1.4`) so that all definitions evaluate by kernel
reduction.
-/

namespace Skycam

/-- Embeds `CameraSettings` (camera.py lines 16–24): a dataclass with
field defaults `exposure=8.0, aperture=1.4, iso="auto", delay=12.0,
quality="raw", max_exposures=0`. -/
structure CameraSettings where
  exposure : ℚ := 8
  aperture : ℚ := mkRat 14 10
  iso : String := "auto"
  delay : ℚ := 12
  quality : String := "raw"
  max_exposures : Int := 0
  deriving DecidableEq, Repr

/-- Embeds `CameraCapabilities` (camera.py lines 27–34). -/
structure CameraCapabilities where
  exposure_times : List ℚ
  apertures : List ℚ
  iso_values : List String
  has_live_view : Bool := true
  supports_bulb_mode : Bool := false
  deriving DecidableEq, Repr

/-- Embeds `CaptureResult` (camera.py lines 37–43). -/
structure CaptureResult where
  success : Bool
  filename : Option String := none
  filepath : Option String := none
  error_message : Option String := none
  deriving DecidableEq, Repr

/-- Decides `|y - v| < |b - v|` on rationals by integer
cross-multiplication over numerators and denominators, so that the
comparison evaluates by kernel reduction.  `absDiffLt_iff` below
proves it equal to the comparison of absolute differences that
Python's `abs(x - v)` key performs. -/
def absDiffLt (v y b : ℚ) : Prop :=
  (y.num * v.den - v.num * y.den).natAbs * (b.den * v.den) <
    (b.num * v.den - v.num * b.den).natAbs * (y.den * v.den)

instance (v y b : ℚ) : Decidable (absDiffLt v y b) :=
  inferInstanceAs (Decidable (_ < _))

/-- The comparison step of Python `min(xs, key=lambda x: abs(x - v))`:
the accumulated best is replaced only when the candidate `y` is
strictly closer to `v`, so the first minimizer in iteration order
wins. -/
def pickCloser (v best y : ℚ) : ℚ :=
  if absDiffLt v y best then y else best

/-- Python `min(xs, key=lambda x: abs(x - v))`: `none` when `xs` is
empty (Python raises `ValueError`), otherwise the first element of
`xs` minimizing `abs(x - v)`. -/
def minByAbsDiff (v : ℚ) : List ℚ → Option ℚ
  | [] => none
  | x :: xs => some (xs.foldl (pickCloser v) x)

/-- Least number of decimal digits (searched up to 17, at least 1)
needed after the point to write a fraction with denominator `d`
exactly; helper for `pyFloatRepr`. -/
def decExpAux (d : ℕ) : ℕ → ℕ → ℕ
  | k, 0 => k
  | k, fuel + 1 => if 10 ^ k % d = 0 then k else decExpAux d (k + 1) fuel

/-- Models Python `str()` of a float whose value is a short decimal
(the only floats the program formats): the decimal digits with at
least one fractional digit, e.g. `7 ↦ "7.0"`, `mkRat 14 10 ↦ "1.4"`. -/
def pyFloatRepr (q : ℚ) : String :=
  let k := max 1 (decExpAux q.den 0 17)
  let m := q.num.natAbs * 10 ^ k / q.den
  let ip := m / 10 ^ k
  let fp := m % 10 ^ k
  let fs := toString fp
  let pad := String.mk (List.replicate (k - fs.length) '0')
  (if q < 0 then "-" else "") ++ toString ip ++ "." ++ pad ++ fs

/-- The f-string of camera.py line 241:
`f"Exposure adjusted from {validated.exposure}s to {closest}s"`. -/
def exposureWarning (old new : ℚ) : String :=
  "Exposure adjusted from " ++ pyFloatRepr old ++ "s to " ++ pyFloatRepr new ++ "s"

/-- The f-string of camera.py line 249:
`f"Aperture adjusted from f/{validated.aperture} to f/{closest}"`. -/
def apertureWarning (old new : ℚ) : String :=
  "Aperture adjusted from f/" ++ pyFloatRepr old ++ " to f/" ++ pyFloatRepr new

/-- The f-string of camera.py line 254:
`f"ISO value '{validated.iso}' may not be supported"`. -/
def isoWarning (iso : String) : String :=
  "ISO value \x27" ++ iso ++ "\x27 may not be supported"

/-- Embeds the exposure block of `Camera.validate_settings`
(camera.py lines 236–242): if the requested value is in the legal
list it is kept with no warning; otherwise the closest legal value is
chosen (`none` when the list is empty, where Python's `min` raises),
and if it differs from the request a warning is recorded and the
value replaced.  The aperture block (lines 244–250) is the same code
with the other warning string, embedded by passing `warn`. -/
def closestStep (warn : ℚ → ℚ → String) (legal : List ℚ) (v : ℚ) :
    Option (ℚ × List String) :=
  if v ∈ legal then some (v, [])
  else
    match minByAbsDiff v legal with
    | none => none
    | some closest =>
        if closest ≠ v then some (closest, [warn v closest])
        else some (v, [])

/-- Embeds the ISO block of `Camera.validate_settings` (camera.py
lines 252–254): the value is never changed; a warning is recorded
when it is not in the legal list (there is no special case for
`"auto"` in this function). -/
def isoStep (legal : List String) (iso : String) : List String :=
  if iso ∈ legal then [] else [isoWarning iso]

/-- Embeds `Camera.validate_settings` (camera.py lines 213–256).
`caps = none` models `self.capabilities` being `None`, where the
settings are returned unchanged with no warnings.  The result is
`none` exactly when Python raises (`min` of an empty legal list on an
axis whose requested value is not in the list).  Warnings are
collected in source order: exposure, aperture, ISO. -/
def validate_settings (caps : Option CameraCapabilities)
    (settings : CameraSettings) : Option (CameraSettings × List String) :=
  match caps with
  | none => some (settings, [])
  | some c =>
      match closestStep exposureWarning c.exposure_times settings.exposure with
      | none => none
      | some (e, we) =>
          match closestStep apertureWarning c.apertures settings.aperture with
          | none => none
          | some (a, wa) =>
              some ({ settings with exposure := e, aperture := a },
                    we ++ wa ++ isoStep c.iso_values settings.iso)

/-- Embeds `Template` (template.py lines 14–33): a dataclass of
optional overlay fields identified by `name`. -/
structure Template where
  name : String
  description : Option String := none
  aperture : Option ℚ := none
  exposure : Option ℚ := none
  iso : Option String := none
  delay : Option ℚ := none
  quality : Option String := none
  max_exposures : Option Int := none
  filename_pattern : Option String := none
  timestamp_format : Option String := none
  temperature_monitoring : Option Bool := none
  deriving DecidableEq, Repr

/-- Python `x or d` for an `Optional[float]` field: `d` when `x` is
falsy, i.e. `None` or `0.0`. -/
def orFloat (x : Option ℚ) (d : ℚ) : ℚ :=
  match x with
  | none => d
  | some v => if v = 0 then d else v

/-- Python `x or d` for an `Optional[str]` field: `d` when `x` is
falsy, i.e. `None` or `""`. -/
def orStr (x : Option String) (d : String) : String :=
  match x with
  | none => d
  | some v => if v = "" then d else v

/-- Python `x or d` for an `Optional[int]` field: `d` when `x` is
falsy, i.e. `None` or `0`. -/
def orInt (x : Option Int) (d : Int) : Int :=
  match x with
  | none => d
  | some v => if v = 0 then d else v

/-- Embeds `Template.to_settings` (template.py lines 35–44): each
settings field is `self.field or hard-default`, using Python's truthy
`or` (so a present but falsy field value — `0`, `0.0`, `""` — falls
back to the default). -/
def Template.to_settings (t : Template) : CameraSettings :=
  { exposure := orFloat t.exposure 8
    aperture := orFloat t.aperture (mkRat 14 10)
    iso := orStr t.iso "auto"
    delay := orFloat t.delay 12
    quality := orStr t.quality "raw"
    max_exposures := orInt t.max_exposures 0 }

/-- Models the template directory of `TemplateManager` (template.py):
the `.yml` files keyed by template name, as an association list. -/
structure TemplateStore where
  entries : List (String × Template)
  deriving DecidableEq, Repr

/-- The empty template directory. -/
def TemplateStore.empty : TemplateStore := ⟨[]⟩

/-- Embeds `TemplateManager.load_template` (template.py lines
116–152) restricted to the store model: the record stored under
`name`, or `none` where Python raises `FileNotFoundError`. -/
def TemplateStore.load (st : TemplateStore) (name : String) : Option Template :=
  (st.entries.find? fun e => e.1 = name).map (·.2)

/-- Embeds `TemplateManager.save_template` (template.py lines
154–163): writes `{template.name}.yml`, overwriting any existing
record of that name. -/
def TemplateStore.save (st : TemplateStore) (t : Template) : TemplateStore :=
  ⟨(st.entries.filter fun e => e.1 ≠ t.name) ++ [(t.name, t)]⟩

/-- Insertion into a sorted list of names; helper for `listNames`. -/
def insertName (x : String) : List String → List String
  | [] => [x]
  | y :: ys => if x ≤ y then x :: y :: ys else y :: insertName x ys

/-- Python `sorted` on a list of strings; helper for `listNames`. -/
def sortNames : List String → List String
  | [] => []
  | x :: xs => insertName x (sortNames xs)

/-- Embeds `TemplateManager.list_templates` (template.py lines
165–177): the stems of the stored `.yml` files, sorted. -/
def TemplateStore.listNames (st : TemplateStore) : List String :=
  sortNames (st.entries.map (·.1))

/-- The template constructed by
`TemplateManager.create_default_template` (template.py lines
185–197). -/
def defaultTemplate : Template :=
  { name := "default"
    description := some "Default skycam template for general astrophotography"
    aperture := some (mkRat 14 10)
    exposure := some 8
    iso := some "auto"
    delay := some 12
    quality := some "raw"
    max_exposures := some 0
    filename_pattern := some "SkyImage-\x7btimestamp\x7d"
    timestamp_format := some "YYYY-MM-DD_HH:MM:SS"
    temperature_monitoring := some false }

/-- Embeds `TemplateManager.create_default_template` (template.py
lines 179–200): saves `defaultTemplate` and returns it. -/
def create_default_template (st : TemplateStore) : Template × TemplateStore :=
  (defaultTemplate, st.save defaultTemplate)

/-- Embeds `TemplateManager.ensure_default_template` (template.py
lines 202–205): creates the default template only when
`default.yml` does not already exist. -/
def ensure_default_template (st : TemplateStore) : TemplateStore :=
  if (st.load "default").isSome then st else (create_default_template st).2

/-- Embeds `TemplateManager.get_template` (template.py lines
207–222): loads `name`; on `FileNotFoundError`, when `name` is
`"default"`, ensures the default template exists and loads it again,
otherwise re-raises (`none`).  Returns the template together with the
possibly-updated store. -/
def get_template (st : TemplateStore) (name : String) :
    Option (Template × TemplateStore) :=
  match st.load name with
  | some t => some (t, st)
  | none =>
      if name = "default" then
        let st' := ensure_default_template st
        (st'.load "default").map fun t => (t, st')
      else none

/-- Embeds the command-line override block of `start` (cli.py lines
60–70): `if exposure: settings.exposure = exposure` and likewise for
aperture, delay and iso (a falsy override — `0.0`, `""` — is
ignored), while max_exposures uses `is not None` and so applies
whenever given. -/
def applyOverrides (s : CameraSettings) (exposure aperture delay : Option ℚ)
    (iso : Option String) (max_exposures : Option Int) : CameraSettings :=
  let s := match exposure with
    | some e => if e = 0 then s else { s with exposure := e }
    | none => s
  let s := match aperture with
    | some a => if a = 0 then s else { s with aperture := a }
    | none => s
  let s := match delay with
    | some d => if d = 0 then s else { s with delay := d }
    | none => s
  let s := match iso with
    | some i => if i = "" then s else { s with iso := i }
    | none => s
  match max_exposures with
  | some m => { s with max_exposures := m }
  | none => s

/-- Embeds the settings-layering phase of `start` (cli.py lines
32–70): base settings come from the named template (aborting,
`none`, when it cannot be loaded), or from `get_template "default"`
when no template is named (falling back to the dataclass defaults if
that load fails, which in this store model it never does); the
command-line overrides are then applied on top. -/
def start_resolve (st : TemplateStore) (template : Option String)
    (exposure aperture delay : Option ℚ) (iso : Option String)
    (max_exposures : Option Int) : Option CameraSettings :=
  match template with
  | some name =>
      match get_template st name with
      | none => none
      | some (t, _) =>
          some (applyOverrides t.to_settings exposure aperture delay iso
            max_exposures)
  | none =>
      let base := match get_template st "default" with
        | some (t, _) => t.to_settings
        | none => {}
      some (applyOverrides base exposure aperture delay iso max_exposures)

/-- The mutable attributes of a `Camera` object (camera.py lines
64–77) that the functions below read or write. -/
structure CameraState where
  port : Option String := none
  connected : Bool := false
  capabilities : Option CameraCapabilities := none
  current_settings : CameraSettings := {}
  deriving DecidableEq, Repr

/-- Embeds `Camera.capture_single` (camera.py lines 336–372).  The
underlying gphoto2 call is abstracted as `device`: `some (filepath,
filename)` when `self.camera.capture` succeeds, `none` with a message
when it raises.  When the camera is not connected the function
returns a failed `CaptureResult` (it never raises); no path mutates
the camera state, which is returned unchanged. -/
def capture_single (c : CameraState) (device : Option (String × String))
    (errMsg : String) : CaptureResult × CameraState :=
  if ¬ c.connected then
    ({ success := false, error_message := some "Camera not connected" }, c)
  else
    match device with
    | some (filepath, filename) =>
        ({ success := true, filename := some filename,
           filepath := some filepath }, c)
    | none =>
        ({ success := false,
           error_message := some ("Capture failed: " ++ errMsg) }, c)

/-- Embeds `Camera.configure_camera` (camera.py lines 258–334): when
the camera is not connected it raises `CameraError("Camera not
connected")` (modelled as `Except.error`); otherwise every per-axis
device interaction is wrapped in its own `try`, each failure demoted
to a warning, so the connected path always returns the collected
warnings (abstracted as `deviceWarnings`). -/
def configure_camera (c : CameraState) (deviceWarnings : List String) :
    Except String (List String) :=
  if ¬ c.connected then .error "Camera not connected"
  else .ok deviceWarnings

/-- Embeds the capture phase of `start` (cli.py lines 124–134): after
configuration the command performs exactly one `capture_single` call
and reports its result — the printed banner says "Single capture for
demo - continuous capture not yet implemented" — so the settings'
`max_exposures` plays no role in how many capture attempts are made. -/
def start_capture_phase (c : CameraState) (device : Option (String × String))
    (errMsg : String) (_settings : CameraSettings) : List CaptureResult :=
  [(capture_single c device errMsg).1]

/-! ## Helper lemmas -/

theorem num_cast_eq (q : ℚ) : ((q.num : ℚ)) = q * (q.den : ℚ) := by
  have h := Rat.num_div_den q
  rw [div_eq_iff (Nat.cast_ne_zero.mpr q.den_nz : ((q.den : ℚ)) ≠ 0)] at h
  exact h

theorem den_mul_pos (y v : ℚ) : (0 : ℚ) < (y.den : ℚ) * (v.den : ℚ) := by
  have h1 : (0 : ℚ) < (y.den : ℚ) := by exact_mod_cast y.pos
  have h2 : (0 : ℚ) < (v.den : ℚ) := by exact_mod_cast v.pos
  exact mul_pos h1 h2

theorem abs_sub_eq_div (v y : ℚ) :
    |y - v| = (((y.num * v.den - v.num * y.den).natAbs : ℚ)) /
      ((y.den : ℚ) * (v.den : ℚ)) := by
  have hpos := den_mul_pos y v
  have key : y - v = (((y.num * v.den - v.num * y.den : ℤ) : ℚ)) /
      ((y.den : ℚ) * (v.den : ℚ)) := by
    rw [eq_div_iff (ne_of_gt hpos)]
    push_cast
    rw [num_cast_eq y, num_cast_eq v]
    ring
  rw [key, abs_div, abs_of_pos hpos, Int.cast_natAbs, Int.cast_abs]

/-- Fidelity of the integer cross-multiplication comparison:
`absDiffLt v y b` holds exactly when `y` is strictly closer to `v`
than `b` is, as Python's `abs(x - v)` key comparison decides. -/
theorem absDiffLt_iff (v y b : ℚ) : absDiffLt v y b ↔ |y - v| < |b - v| := by
  rw [abs_sub_eq_div v y, abs_sub_eq_div v b,
    div_lt_div_iff₀ (den_mul_pos y v) (den_mul_pos b v)]
  unfold absDiffLt
  constructor <;> intro h <;> exact_mod_cast h

theorem pickCloser_eq (v b y : ℚ) :
    pickCloser v b y = if |y - v| < |b - v| then y else b := by
  unfold pickCloser
  exact if_congr (absDiffLt_iff v y b) rfl rfl

theorem foldl_pickCloser_mem (v : ℚ) (xs : List ℚ) :
    ∀ b : ℚ, xs.foldl (pickCloser v) b = b ∨ xs.foldl (pickCloser v) b ∈ xs := by
  induction xs with
  | nil => intro b; left; rfl
  | cons x xs ih =>
      intro b
      simp only [List.foldl_cons]
      have hp : pickCloser v b x = x ∨ pickCloser v b x = b := by
        rw [pickCloser_eq]; split_ifs <;> simp
      rcases ih (pickCloser v b x) with h | h
      · rcases hp with hx | hb
        · right; rw [h, hx]; exact List.mem_cons_self x xs
        · left; rw [h, hb]
      · right; exact List.mem_cons_of_mem x h

theorem foldl_pickCloser_stay (v : ℚ) (xs : List ℚ) :
    ∀ b : ℚ, (∀ z ∈ xs, |b - v| ≤ |z - v|) → xs.foldl (pickCloser v) b = b := by
  induction xs with
  | nil => intro b _; rfl
  | cons x xs ih =>
      intro b h
      simp only [List.foldl_cons]
      have hx : pickCloser v b x = b := by
        rw [pickCloser_eq, if_neg]
        exact not_lt.mpr (h x (List.mem_cons_self x xs))
      rw [hx]
      exact ih b fun z hz => h z (List.mem_cons_of_mem x hz)

theorem foldl_pickCloser_through (v x : ℚ) (l₂ : List ℚ)
    (hmin : ∀ z ∈ l₂, |x - v| ≤ |z - v|) :
    ∀ (l₁ : List ℚ) (b : ℚ), (∀ z ∈ l₁, |x - v| < |z - v|) →
      |x - v| < |b - v| → (l₁ ++ x :: l₂).foldl (pickCloser v) b = x := by
  intro l₁
  induction l₁ with
  | nil =>
      intro b _ hb
      simp only [List.nil_append, List.foldl_cons]
      have hbx : pickCloser v b x = x := by rw [pickCloser_eq, if_pos hb]
      rw [hbx]
      exact foldl_pickCloser_stay v l₂ x hmin
  | cons a l₁ ih =>
      intro b hl hb
      simp only [List.cons_append, List.foldl_cons]
      have ha : |x - v| < |a - v| := hl a (List.mem_cons_self a l₁)
      have hb' : |x - v| < |pickCloser v b a - v| := by
        rw [pickCloser_eq]; split_ifs <;> assumption
      exact ih (pickCloser v b a) (fun z hz => hl z (List.mem_cons_of_mem a hz)) hb'

/-- Python `min` with the absolute-difference key returns the first
minimizer in iteration order. -/
theorem minByAbsDiff_first (v x : ℚ) (l₁ l₂ : List ℚ)
    (h₁ : ∀ z ∈ l₁, |x - v| < |z - v|) (h₂ : ∀ z ∈ l₂, |x - v| ≤ |z - v|) :
    minByAbsDiff v (l₁ ++ x :: l₂) = some x := by
  cases l₁ with
  | nil =>
      simp only [List.nil_append, minByAbsDiff]
      rw [foldl_pickCloser_stay v l₂ x h₂]
  | cons a l₁ =>
      simp only [List.cons_append, minByAbsDiff]
      rw [foldl_pickCloser_through v x l₂ h₂ l₁ a
        (fun z hz => h₁ z (List.mem_cons_of_mem a hz))
        (h₁ a (List.mem_cons_self a l₁))]

theorem minByAbsDiff_mem (v : ℚ) (l : List ℚ) (x : ℚ)
    (h : minByAbsDiff v l = some x) : x ∈ l := by
  cases l with
  | nil => simp [minByAbsDiff] at h
  | cons a l =>
      simp only [minByAbsDiff, Option.some.injEq] at h
      rcases foldl_pickCloser_mem v l a with h' | h'
      · rw [← h, h']; exact List.mem_cons_self a l
      · rw [← h]; exact List.mem_cons_of_mem a h'

theorem closestStep_of_mem (warn : ℚ → ℚ → String) (legal : List ℚ) (v : ℚ)
    (h : v ∈ legal) : closestStep warn legal v = some (v, []) := by
  unfold closestStep
  rw [if_pos h]

/-- On a non-empty legal list, `closestStep` always succeeds, returns
a member of the list, and is the identity with no warning when the
requested value is already legal. -/
theorem closestStep_total (warn : ℚ → ℚ → String) (legal : List ℚ) (v : ℚ)
    (hne : legal ≠ []) :
    ∃ r ws, closestStep warn legal v = some (r, ws) ∧ r ∈ legal ∧
      (v ∈ legal → r = v ∧ ws = []) := by
  by_cases hv : v ∈ legal
  · exact ⟨v, [], closestStep_of_mem warn legal v hv, hv, fun _ => ⟨rfl, rfl⟩⟩
  · obtain ⟨a, l, rfl⟩ := List.exists_cons_of_ne_nil hne
    have hm : minByAbsDiff v (a :: l) = some (l.foldl (pickCloser v) a) := rfl
    set m := l.foldl (pickCloser v) a with hmdef
    have hmem : m ∈ a :: l := minByAbsDiff_mem v (a :: l) m hm
    have hmv : m ≠ v := fun h => hv (h ▸ hmem)
    refine ⟨m, [warn v m], ?_, hmem, fun h => absurd h hv⟩
    unfold closestStep
    rw [if_neg hv, hm]
    simp [hmv]

/-- Master description of `validate_settings` on capability lists with
non-empty exposure and aperture sets: the call succeeds, the warning
list is the per-axis concatenation, each reconciled axis value is a
member of its legal list, non-reconciled fields pass through, and a
requested value already in its legal list is kept with no warning for
that axis. -/
theorem validate_settings_total (caps : CameraCapabilities) (s : CameraSettings)
    (he : caps.exposure_times ≠ []) (ha : caps.apertures ≠ []) :
    ∃ r we wa, validate_settings (some caps) s =
        some (r, we ++ wa ++ isoStep caps.iso_values s.iso) ∧
      closestStep exposureWarning caps.exposure_times s.exposure =
        some (r.exposure, we) ∧
      closestStep apertureWarning caps.apertures s.aperture =
        some (r.aperture, wa) ∧
      r.exposure ∈ caps.exposure_times ∧ r.aperture ∈ caps.apertures ∧
      r.iso = s.iso ∧ r.delay = s.delay ∧ r.quality = s.quality ∧
      r.max_exposures = s.max_exposures ∧
      (s.exposure ∈ caps.exposure_times → r.exposure = s.exposure ∧ we = []) ∧
      (s.aperture ∈ caps.apertures → r.aperture = s.aperture ∧ wa = []) := by
  obtain ⟨re, we, hse, hme, hie⟩ :=
    closestStep_total exposureWarning caps.exposure_times s.exposure he
  obtain ⟨ra, wa, hsa, hma, hia⟩ :=
    closestStep_total apertureWarning caps.apertures s.aperture ha
  refine ⟨{ s with exposure := re, aperture := ra }, we, wa, ?_, hse, hsa,
    hme, hma, rfl, rfl, rfl, rfl, fun h => ⟨(hie h).1, (hie h).2⟩,
    fun h => ⟨(hia h).1, (hia h).2⟩⟩
  simp only [validate_settings, hse, hsa]

/-- Finds the first occurrence of a member: any list containing `x`
splits as `l₁ ++ x :: l₂` with `x` not in `l₁`. -/
theorem exists_first_split {α : Type} [DecidableEq α] {x : α} :
    ∀ {l : List α}, x ∈ l → ∃ l₁ l₂, l = l₁ ++ x :: l₂ ∧ x ∉ l₁ := by
  intro l
  induction l with
  | nil => intro h; cases h
  | cons a l ih =>
      intro h
      by_cases hax : a = x
      · exact ⟨[], l, by rw [hax]; rfl, by simp⟩
      · have h' : x ∈ l := by
          rcases List.mem_cons.mp h with h | h
          · exact absurd h.symm hax
          · exact h
        obtain ⟨l₁, l₂, heq, hnx⟩ := ih h'
        refine ⟨a :: l₁, l₂, by rw [heq]; rfl, ?_⟩
        intro hmem
        rcases List.mem_cons.mp hmem with h'' | h''
        · exact hax h''.symm
        · exact hnx h''

/-! ## Claim theorems -/

/-- Claim C1: for every requested settings value and non-empty queried
capability lists, `validate_settings` succeeds; the reconciled
exposure and aperture are members of their legal lists; and a
requested exposure (or aperture) already in its legal list is
returned unchanged with an empty warning contribution for that axis
(the full warning list being the concatenation of the per-axis
contributions in source order). -/
theorem claim1_reconcile_membership (caps : CameraCapabilities)
    (s : CameraSettings) (he : caps.exposure_times ≠ [])
    (ha : caps.apertures ≠ []) :
    ∃ r we wa, validate_settings (some caps) s =
        some (r, we ++ wa ++ isoStep caps.iso_values s.iso) ∧
      r.exposure ∈ caps.exposure_times ∧ r.aperture ∈ caps.apertures ∧
      (s.exposure ∈ caps.exposure_times → r.exposure = s.exposure ∧ we = []) ∧
      (s.aperture ∈ caps.apertures → r.aperture = s.aperture ∧ wa = []) := by
  obtain ⟨r, we, wa, h1, _, _, h4, h5, _, _, _, _, h10, h11⟩ :=
    validate_settings_total caps s he ha
  exact ⟨r, we, wa, h1, h4, h5, h10, h11⟩

/-- Witness for C1 at the default-capability exposure list and the
default settings (whose exposure 8 and aperture 1.4 are legal). -/
theorem claim1_witness :
    ∃ r we wa,
      validate_settings
          (some ⟨[1, 2, 4, 8, 15], [mkRat 14 10], ["auto"], true, false⟩)
          {} =
        some (r, we ++ wa ++ isoStep ["auto"] "auto") ∧
      r.exposure ∈ [(1 : ℚ), 2, 4, 8, 15] ∧ r.aperture ∈ [mkRat 14 10] ∧
      ((8 : ℚ) ∈ [(1 : ℚ), 2, 4, 8, 15] → r.exposure = 8 ∧ we = []) ∧
      (mkRat 14 10 ∈ [mkRat 14 10] → r.aperture = mkRat 14 10 ∧ wa = []) :=
  claim1_reconcile_membership
    ⟨[1, 2, 4, 8, 15], [mkRat 14 10], ["auto"], true, false⟩ {}
    (by decide) (by decide)

/-- Claim C5, counterexample: `Camera.validate_settings` has no
special case for `"auto"` — with the default settings (whose iso is
`"auto"`) and an ISO capability list not containing `"auto"`, a
"may not be supported" warning IS emitted, contradicting the claim
that a requested `"auto"` never draws an ISO warning. -/
theorem claim5_counterexample :
    ({} : CameraSettings).iso = "auto" ∧
    validate_settings (some ⟨[8], [mkRat 14 10], ["100"], true, false⟩) {} =
      some ({}, ["ISO value \x27auto\x27 may not be supported"]) := by decide

/-- Claim C5 (amended): reconciliation never changes the ISO value;
no ISO warning is contributed exactly when the requested ISO is a
member of the legal list (including `"auto"` only when the list
contains it), and otherwise the single "may not be supported"
warning is contributed. -/
theorem claim5_iso_flag_only (caps : CameraCapabilities) (s : CameraSettings)
    (he : caps.exposure_times ≠ []) (ha : caps.apertures ≠ []) :
    ∃ r we wa, validate_settings (some caps) s =
        some (r, we ++ wa ++ isoStep caps.iso_values s.iso) ∧
      r.iso = s.iso ∧
      (s.iso ∈ caps.iso_values → isoStep caps.iso_values s.iso = []) ∧
      (s.iso ∉ caps.iso_values →
        isoStep caps.iso_values s.iso = [isoWarning s.iso]) := by
  obtain ⟨r, we, wa, h1, _, _, _, _, h6, _, _, _, _, _⟩ :=
    validate_settings_total caps s he ha
  refine ⟨r, we, wa, h1, h6, fun h => ?_, fun h => ?_⟩
  · simp [isoStep, h]
  · simp [isoStep, h]

/-- Witness for the amended C5: ISO `"3200"` against the default ISO
list is kept and flagged ("3200" is absent from the list). -/
theorem claim5_witness :
    ∃ r we wa,
      validate_settings
          (some ⟨[8], [mkRat 14 10], ["auto", "100", "200"], true, false⟩)
          { iso := "3200" } =
        some (r, we ++ wa ++ isoStep ["auto", "100", "200"] "3200") ∧
      r.iso = "3200" ∧
      ("3200" ∈ ["auto", "100", "200"] →
        isoStep ["auto", "100", "200"] "3200" = []) ∧
      ("3200" ∉ ["auto", "100", "200"] →
        isoStep ["auto", "100", "200"] "3200" = [isoWarning "3200"]) :=
  claim5_iso_flag_only ⟨[8], [mkRat 14 10], ["auto", "100", "200"], true, false⟩
    { iso := "3200" } (by decide) (by decide)

/-- Claim C3: contrary to the claim, reconciling against an empty
exposure (or aperture) capability list is not a no-op — the requested
value is never a member of an empty list, so the code reaches
Python's `min` of an empty sequence, which raises `ValueError`
(modelled as `none`).  This is evaluated here at the default settings
for each axis. -/
theorem claim3_empty_axis_raises :
    validate_settings (some ⟨[], [mkRat 14 10], ["auto"], true, false⟩) {} =
      none ∧
    validate_settings (some ⟨[8], [], ["auto"], true, false⟩) {} = none := by
  decide

/-- Claim C7, counterexample: the warning produced for requested
exposure 7 against legal exposures `[1, 2, 4, 8, 15]` is
`"Exposure adjusted from 7.0s to 8.0s"` (Python formats the floats
and appends an `s` unit suffix), not the claimed
`"Exposure adjusted from 7 to 8"`. -/
theorem claim7_counterexample :
    validate_settings
        (some ⟨[1, 2, 4, 8, 15], [mkRat 14 10], ["auto"], true, false⟩)
        { exposure := 7 } =
      some ({ exposure := 8 }, ["Exposure adjusted from 7.0s to 8.0s"]) ∧
    "Exposure adjusted from 7.0s to 8.0s" ≠
      "Exposure adjusted from 7 to 8" := by decide

/-- Claim C7 (amended): reconciling requested exposure 7 against
legal exposure times `[1, 2, 4, 8, 15]` yields exposure 8 and exactly
the warning `"Exposure adjusted from 7.0s to 8.0s"`. -/
theorem claim7_concrete_scenario :
    validate_settings
        (some ⟨[1, 2, 4, 8, 15], [mkRat 14 10], ["auto"], true, false⟩)
        { exposure := 7 } =
      some ({ exposure := 8 }, [exposureWarning 7 8]) ∧
    exposureWarning 7 8 = "Exposure adjusted from 7.0s to 8.0s" := by decide

/-- Recombination lemma: `validate_settings` from the results of its
two closest-match steps. -/
theorem validate_settings_eq (c : CameraCapabilities) (s : CameraSettings)
    (re ra : ℚ) (we wa : List String)
    (hse : closestStep exposureWarning c.exposure_times s.exposure =
      some (re, we))
    (hsa : closestStep apertureWarning c.apertures s.aperture =
      some (ra, wa)) :
    validate_settings (some c) s =
      some ({ s with exposure := re, aperture := ra },
        we ++ wa ++ isoStep c.iso_values s.iso) := by
  simp only [validate_settings, hse, hsa]

/-- Core of C6: on an ascending legal list where `x < y` are two
members equidistant from (and closest to) the request `v`, which is
itself not legal, the closest-match step selects the lower member
`x`, with the corresponding adjustment warning. -/
theorem closestStep_tie (warn : ℚ → ℚ → String) (v x y : ℚ) (l : List ℚ)
    (hsort : List.Sorted (· ≤ ·) l) (hx : x ∈ l) (hy : y ∈ l) (hxy : x < y)
    (htie : |x - v| = |y - v|) (hmin : ∀ z ∈ l, |x - v| ≤ |z - v|)
    (hv : v ∉ l) :
    closestStep warn l v = some (x, [warn v x]) := by
  have hxv : x < v := by
    rcases lt_or_le x v with h | h
    · exact h
    · exfalso
      have hvx : v < x := lt_of_le_of_ne h fun e => hv (e ▸ hx)
      have h1 : |x - v| = x - v := abs_of_pos (sub_pos.mpr hvx)
      have h2 : |y - v| = y - v := abs_of_pos (sub_pos.mpr (hvx.trans hxy))
      rw [h1, h2] at htie
      exact hxy.ne (by linarith)
  have habs : |x - v| = v - x := by
    rw [abs_of_neg (sub_neg.mpr hxv), neg_sub]
  have hvy : v < y := by
    rcases lt_or_le v y with h | h
    · exact h
    · exfalso
      have hyv : y < v := lt_of_le_of_ne h fun e => hv (e ▸ hy)
      have h2 : |y - v| = v - y := by
        rw [abs_of_neg (sub_neg.mpr hyv), neg_sub]
      rw [habs, h2] at htie
      exact hxy.ne (by linarith)
  have hyval : y = 2 * v - x := by
    have h2 : |y - v| = y - v := abs_of_pos (sub_pos.mpr hvy)
    rw [habs, h2] at htie
    linarith
  have hchar : ∀ z ∈ l, |x - v| = |z - v| → z = x ∨ z = y := by
    intro z _ he
    rw [habs] at he
    rcases (abs_eq (by linarith : (0 : ℚ) ≤ v - x)).mp he.symm with h | h
    · right; rw [hyval]; linarith
    · left; linarith
  obtain ⟨l₁, l₂, heq, hnx⟩ := exists_first_split hx
  have hsorted : List.Pairwise (· ≤ ·) (l₁ ++ x :: l₂) := heq ▸ hsort
  have hle : ∀ z ∈ l₁, z ≤ x := by
    intro z hz
    exact (List.pairwise_append.mp hsorted).2.2 z hz x (List.mem_cons_self x l₂)
  have hstrict : ∀ z ∈ l₁, |x - v| < |z - v| := by
    intro z hz
    have hzl : z ∈ l := by rw [heq]; exact List.mem_append_left _ hz
    rcases lt_or_eq_of_le (hmin z hzl) with h | h
    · exact h
    · exfalso
      rcases hchar z hzl h with rfl | rfl
      · exact hnx hz
      · exact absurd (hle _ hz) (not_le.mpr hxy)
  have hl₂ : ∀ z ∈ l₂, |x - v| ≤ |z - v| := by
    intro z hz
    refine hmin z ?_
    rw [heq]
    exact List.mem_append_right _ (List.mem_cons_of_mem x hz)
  have hfirst : minByAbsDiff v l = some x := by
    rw [heq]
    exact minByAbsDiff_first v x l₁ l₂ hstrict hl₂
  unfold closestStep
  rw [if_neg hv, hfirst]
  simp [hxv.ne]

/-- Claim C6: when the legal list is sorted ascending (as
`_query_capabilities` produces it) and contains two candidates `x < y`
at equal and minimal absolute distance from a requested value that is
not itself legal, reconciliation deterministically selects the lower
candidate `x` — on the exposure axis and on the aperture axis. -/
theorem claim6_tie_break (v x y : ℚ) (l : List ℚ) (s : CameraSettings)
    (hsort : List.Sorted (· ≤ ·) l) (hx : x ∈ l) (hy : y ∈ l) (hxy : x < y)
    (htie : |x - v| = |y - v|) (hmin : ∀ z ∈ l, |x - v| ≤ |z - v|)
    (hv : v ∉ l) :
    validate_settings (some ⟨l, [s.aperture], [s.iso], true, false⟩)
        { s with exposure := v } =
      some ({ s with exposure := x },
        exposureWarning v x :: isoStep [s.iso] s.iso) ∧
    validate_settings (some ⟨[s.exposure], l, [s.iso], true, false⟩)
        { s with aperture := v } =
      some ({ s with aperture := x },
        apertureWarning v x :: isoStep [s.iso] s.iso) := by
  constructor
  · exact validate_settings_eq ⟨l, [s.aperture], [s.iso], true, false⟩
      { s with exposure := v } x s.aperture [exposureWarning v x] []
      (closestStep_tie exposureWarning v x y l hsort hx hy hxy htie hmin hv)
      (closestStep_of_mem apertureWarning [s.aperture] s.aperture (by simp))
  · exact validate_settings_eq ⟨[s.exposure], l, [s.iso], true, false⟩
      { s with aperture := v } s.exposure x [] [apertureWarning v x]
      (closestStep_of_mem exposureWarning [s.exposure] s.exposure (by simp))
      (closestStep_tie apertureWarning v x y l hsort hx hy hxy htie hmin hv)

/-- Witness for C6: requested value 2 against sorted legal list
`[1, 3]`, a tie at distance 1, selects 1 on each axis. -/
theorem claim6_witness :
    validate_settings (some ⟨[1, 3], [mkRat 14 10], ["auto"], true, false⟩)
        { exposure := 2 } =
      some ({ exposure := 1 }, [exposureWarning 2 1]) ∧
    validate_settings (some ⟨[8], [1, 3], ["auto"], true, false⟩)
        { aperture := 2 } =
      some ({ aperture := 1 }, [apertureWarning 2 1]) :=
  claim6_tie_break 2 1 3 [1, 3] {} (by decide) (by decide) (by decide)
    (by norm_num) (by norm_num)
    (by intro z hz; fin_cases hz <;> norm_num) (by decide)

/-- Claim C2: the capture phase of the `start` command performs
exactly one `capture_single` call and produces exactly one result,
even when the resolved settings request `max_exposures = 3`; there is
no capture loop in the code ("continuous capture not yet
implemented"). -/
theorem claim2_session_single_capture (c : CameraState)
    (dev : Option (String × String)) (msg : String) (s : CameraSettings) :
    start_capture_phase c dev msg { s with max_exposures := 3 } =
      [(capture_single c dev msg).1] ∧
    (start_capture_phase c dev msg { s with max_exposures := 3 }).length
      = 1 :=
  ⟨rfl, rfl⟩

/-- Claim C10: with the connected flag false, `capture_single`
returns (never raises) a failed `CaptureResult` carrying the message
"Camera not connected" and leaves the camera state unchanged,
while `configure_camera` raises `CameraError` instead. -/
theorem claim10_capture_not_connected (c : CameraState)
    (dev : Option (String × String)) (msg : String) (w : List String)
    (h : c.connected = false) :
    capture_single c dev msg =
      ({ success := false, filename := none, filepath := none,
         error_message := some "Camera not connected" }, c) ∧
    configure_camera c w = Except.error "Camera not connected" := by
  unfold capture_single configure_camera
  rw [h]
  simp

/-- Witness for C10 at a freshly constructed camera state. -/
theorem claim10_witness :
    capture_single {} (some ("/p", "f.nef")) "boom" =
      ({ success := false, filename := none, filepath := none,
         error_message := some "Camera not connected" },
        ({} : CameraState)) ∧
    configure_camera {} ["w"] = Except.error "Camera not connected" :=
  claim10_capture_not_connected {} (some ("/p", "f.nef")) "boom" ["w"] rfl

/-- Claim C8: on an empty template store, `get_template "default"`
creates, persists and returns the canonical default template (named
"default", with the documented description), and the stored names
afterwards are exactly `["default"]`. -/
theorem claim8_default_scenario :
    get_template TemplateStore.empty "default" =
      some (defaultTemplate,
        TemplateStore.save TemplateStore.empty defaultTemplate) ∧
    defaultTemplate.name = "default" ∧
    defaultTemplate.description =
      some "Default skycam template for general astrophotography" ∧
    TemplateStore.listNames
        (TemplateStore.save TemplateStore.empty defaultTemplate) =
      ["default"] := by decide

/-- Loading the name just saved always finds the saved template. -/
theorem load_save_self (st : TemplateStore) (t : Template) :
    (st.save t).load t.name = some t := by
  unfold TemplateStore.save TemplateStore.load
  rw [List.find?_append]
  have h1 : List.find? (fun e => e.1 = t.name)
      (st.entries.filter fun e => e.1 ≠ t.name) = none := by
    rw [List.find?_eq_none]
    intro x hx
    have hmem := List.mem_filter.mp hx
    simp only [decide_eq_true_eq] at hmem ⊢
    exact hmem.2
  rw [h1]
  simp [List.find?]

/-- Claim C9: `ensure_default_template` is idempotent — once the
default template exists in the store (in particular after a first
call), any further call leaves the store, and hence the stored
default template, unchanged. -/
theorem claim9_ensure_idempotent (st : TemplateStore) :
    (∀ t, st.load "default" = some t → ensure_default_template st = st) ∧
    ensure_default_template (ensure_default_template st) =
      ensure_default_template st := by
  have hstay : ∀ s : TemplateStore, (s.load "default").isSome = true →
      ensure_default_template s = s := by
    intro s hs
    unfold ensure_default_template
    rw [if_pos hs]
  constructor
  · intro t ht
    exact hstay st (by rw [ht]; rfl)
  · by_cases h : (st.load "default").isSome = true
    · rw [hstay st h]
      exact hstay st h
    · have h1 : ensure_default_template st = st.save defaultTemplate := by
        unfold ensure_default_template
        rw [if_neg h]
        rfl
      have h2 : (st.save defaultTemplate).load "default" =
          some defaultTemplate := load_save_self st defaultTemplate
      rw [h1]
      apply hstay
      rw [h2]
      rfl

/-- Witness for C9: a store already holding the default template is
left unchanged by `ensure_default_template`. -/
theorem claim9_witness :
    ensure_default_template
        (TemplateStore.save TemplateStore.empty defaultTemplate) =
      TemplateStore.save TemplateStore.empty defaultTemplate :=
  (claim9_ensure_idempotent
      (TemplateStore.save TemplateStore.empty defaultTemplate)).1
    defaultTemplate (by decide)

/-- Claim C4, counterexample: a template field that is present but
falsy does NOT override the hard default — a template with
`exposure = 0.0` resolves to the hard-default exposure 8, not 0,
because `to_settings` uses Python's truthy `or`. -/
theorem claim4_counterexample :
    (({ name := "t0", exposure := some 0 } : Template)).exposure = some 0 ∧
    start_resolve ⟨[("t0", { name := "t0", exposure := some 0 })]⟩
      (some "t0") none none none none none = some {} ∧
    ({} : CameraSettings).exposure = 8 ∧ (8 : ℚ) ≠ 0 := by decide

/-- Claim C4 (amended): layering precedence hard defaults < template
< explicit overrides holds with Python-truthiness caveats: resolving
with no template name and no overrides on a fresh store yields the
hard defaults; a template field that is present and truthy (non-zero
number, non-empty string; any present `max_exposures`) overrides the
hard default, while an absent field leaves it; and a truthy explicit
exposure override wins regardless of the template. -/
theorem claim4_layering :
    (start_resolve TemplateStore.empty none none none none none none =
      some {}) ∧
    (∀ t : Template,
      (∀ e, t.exposure = some e → e ≠ 0 → t.to_settings.exposure = e) ∧
      (t.exposure = none → t.to_settings.exposure = 8) ∧
      (∀ a, t.aperture = some a → a ≠ 0 → t.to_settings.aperture = a) ∧
      (t.aperture = none → t.to_settings.aperture = mkRat 14 10) ∧
      (∀ i, t.iso = some i → i ≠ "" → t.to_settings.iso = i) ∧
      (t.iso = none → t.to_settings.iso = "auto") ∧
      (∀ d, t.delay = some d → d ≠ 0 → t.to_settings.delay = d) ∧
      (t.delay = none → t.to_settings.delay = 12) ∧
      (∀ q, t.quality = some q → q ≠ "" → t.to_settings.quality = q) ∧
      (t.quality = none → t.to_settings.quality = "raw") ∧
      (∀ m, t.max_exposures = some m → t.to_settings.max_exposures = m) ∧
      (t.max_exposures = none → t.to_settings.max_exposures = 0)) ∧
    (∀ (st : TemplateStore) (n : String) (t : Template)
      (st₂ : TemplateStore) (e : ℚ),
      get_template st n = some (t, st₂) → e ≠ 0 →
      start_resolve st (some n) (some e) none none none none =
        some { t.to_settings with exposure := e }) := by
  refine ⟨by decide, fun t => ?_, fun st n t st₂ e hget hne => ?_⟩
  · refine ⟨fun e he hne => ?_, fun he => ?_, fun a ha hna => ?_,
      fun ha => ?_, fun i hi hni => ?_, fun hi => ?_, fun d hd hnd => ?_,
      fun hd => ?_, fun q hq hnq => ?_, fun hq => ?_, fun m hm => ?_,
      fun hm => ?_⟩
    · simp [Template.to_settings, orFloat, he, hne]
    · simp [Template.to_settings, orFloat, he]
    · simp [Template.to_settings, orFloat, ha, hna]
    · simp [Template.to_settings, orFloat, ha]
    · simp [Template.to_settings, orStr, hi, hni]
    · simp [Template.to_settings, orStr, hi]
    · simp [Template.to_settings, orFloat, hd, hnd]
    · simp [Template.to_settings, orFloat, hd]
    · simp [Template.to_settings, orStr, hq, hnq]
    · simp [Template.to_settings, orStr, hq]
    · rcases eq_or_ne m 0 with rfl | hm0
      · simp [Template.to_settings, orInt, hm]
      · simp [Template.to_settings, orInt, hm, hm0]
    · simp [Template.to_settings, orInt, hm]
  · simp only [start_resolve, hget]
    simp [applyOverrides, hne]

/-- Witness for the amended C4: an explicit exposure override 20 wins
over a template whose exposure is 30. -/
theorem claim4_witness :
    start_resolve ⟨[("night", { name := "night", exposure := some 30 })]⟩
        (some "night") (some 20) none none none none =
      some { ({ name := "night", exposure := some 30 } :
        Template).to_settings with exposure := 20 } :=
  claim4_layering.2.2
    ⟨[("night", { name := "night", exposure := some 30 })]⟩ "night"
    { name := "night", exposure := some 30 }
    ⟨[("night", { name := "night", exposure := some 30 })]⟩ 20
    (by decide) (by decide)

end Skycam
